import Mathlib

/-!
Shallow embedding of `src/main.py` — a FastAPI proxy that queries the App
Store Connect API for app review status.  Pure data and the request/response
pipeline are translated directly from the Python source; the behaviour of the
third-party layers the source configures explicitly (`urllib3.util.retry.Retry`
on the `requests` session, PyJWT's `jwt.encode`, FastAPI's exception routing)
is modelled from those libraries' documented semantics, since the source's
observable behaviour depends on them.
-/

/-- One entry of the Python dict `APP_CONFIGS` (src/main.py lines 28-48):
`{"name": ..., "key_id": ..., "issuer_id": ..., "private_key": <account key name>}`. -/
structure AppConfig where
  name : String
  key_id : String
  issuer_id : String
  private_key : String
deriving DecidableEq, Repr

/-- The static routing map `APP_CONFIGS` (src/main.py lines 28-48), in dict
insertion order. -/
def APP_CONFIGS : List (String × AppConfig) :=
  [("com.opalive.ios",
     { name := "4part", key_id := "6UTNX28TTA",
       issuer_id := "54b0385b-4752-4e0f-b50e-e2873b621c62",
       private_key := "ACCOUNT1" }),
   ("com.lami.ios",
     { name := "Nova Live", key_id := "8S8K59Y236",
       issuer_id := "bfd37f46-f3ac-4364-a30e-c4ee9975b4cf",
       private_key := "ACCOUNT2" })]

/-- The status→label dict `status_map` built inside `get_app_status`
(src/main.py lines 236-246).  The source maps exactly these nine codes. -/
def statusMap : List (String × String) :=
  [("READY_FOR_SALE", "已上架"),
   ("IN_REVIEW", "审核中"),
   ("WAITING_FOR_REVIEW", "等待审核"),
   ("PENDING_DEVELOPER_RELEASE", "等待开发者发布"),
   ("REJECTED", "被拒绝"),
   ("PREPARE_FOR_SUBMISSION", "准备提交"),
   ("DEVELOPER_REJECTED", "开发者撤回"),
   ("REMOVED_FROM_SALE", "已下架"),
   ("METADATA_REJECTED", "元数据被拒")]

/-- Python `status_map.get(state, state)` (src/main.py line 255): table lookup
with the code itself as the fallback label. -/
def statusCn (state : String) : String :=
  (statusMap.lookup state).getD state

/-- JWT claim set built by `generate_token` (src/main.py lines 93-98). -/
structure JWTPayload where
  iss : String
  iat : Nat
  exp : Nat
  aud : String
deriving DecidableEq, Repr

/-- A token produced by `jwt.encode(payload, key, algorithm="ES256",
headers=...kid...)` (src/main.py lines 101-106).  ES256 signing draws a fresh
random ECDSA nonce per call; the token is determined by the payload, the
header fields, the signing key and that nonce. -/
structure JWTToken where
  header_alg : String
  header_kid : String
  payload : JWTPayload
  signingKey : String
  sigNonce : Nat
deriving DecidableEq, Repr

/-- `generate_token` (src/main.py lines 91-106).  The Python source calls
`int(time.time())` twice — once for `iat` and once inside the `exp`
expression — so the two clock reads `now1` and `now2` are distinct inputs;
`nonce` is the ECDSA signing randomness consumed by `jwt.encode`. -/
def generate_token (key_id issuer_id private_key : String)
    (now1 now2 nonce : Nat) : JWTToken :=
  { header_alg := "ES256"
    header_kid := key_id
    payload :=
      { iss := issuer_id
        iat := now1
        exp := now2 + 900
        aud := "appstoreconnect-v1" }
    signingKey := private_key
    sigNonce := nonce }

/-- One element of the `errors` list of an Apple error body; Python reads
`errors[0].get("detail", response.text)` (src/main.py line 116), so the
`detail` key may be absent. -/
structure AppleError where
  detail : Option String
deriving DecidableEq, Repr

/-- A parsed JSON body as the source reads it: `data.get("errors", [])`
(src/main.py line 114) and `.json().get('data', [])` (src/main.py lines
203, 225) both default absent keys to `[]`, so absent and empty lists
coincide here.  `α` is the shape of one `data` element. -/
structure UpJson (α : Type) where
  data : List α
  errors : List AppleError
deriving Repr

/-- An HTTP response from `requests`: status code, raw body text, and the
result of `.json()` — `none` models the body failing to parse as a JSON
object (in which case `response.json()` raises and `.get` is never reached). -/
structure UpResponse (α : Type) where
  status : Nat
  text : String
  json : Option (UpJson α)
deriving Repr

/-- `get_apple_error_detail` (src/main.py lines 110-119): try to parse the
body; on a non-empty `errors` list return `errors[0].get("detail",
response.text)`; on parse failure or an empty `errors` list return the raw
body text. -/
def get_apple_error_detail (r : UpResponse α) : String :=
  match r.json with
  | some j =>
    match j.errors with
    | [] => r.text
    | e :: _ => e.detail.getD r.text
  | none => r.text

/-- One network attempt: either a response arrives or the attempt fails at
the transport level (timeout / connection error) with exception text `msg`. -/
inductive Attempt (α : Type)
  | resp (r : UpResponse α)
  | connFail (msg : String)

/-- What `session.get` delivers to the caller after the adapter's retry
logic: a response, or a raised `requests` exception with text `msg`. -/
inductive SessionOutcome (α : Type)
  | ok (r : UpResponse α)
  | exn (msg : String)
deriving Repr

/-- `status_forcelist=[502, 503, 504]` of the `Retry` configuration
(src/main.py line 52). -/
def status_forcelist : List Nat := [502, 503, 504]

/-- urllib3 `Retry.get_backoff_time` for the `k`-th consecutive retry with
the configured `backoff_factor` (src/main.py line 52 sets it to 1): the
library returns 0 when `consecutive_errors_len <= 1` — the first retry is
immediate — and `backoff_factor * 2^(k-1)` afterwards, capped at
`DEFAULT_BACKOFF_MAX = 120` seconds (the library's own docstring example is
the sleep sequence 0.0s, 0.2s, 0.4s, ...). -/
def backoff_time (backoff_factor : Nat) (k : Nat) : Nat :=
  if k ≤ 1 then 0 else min (backoff_factor * 2 ^ (k - 1)) 120

/-- Result of one `session.get` call: the outcome plus the ghost data the
spec's tests observe — how many attempts were made and the backoff sleeps
(in seconds) between them. -/
structure SessionResult (α : Type) where
  outcome : SessionOutcome α
  attempts : Nat
  backoffs : List Nat
deriving Repr

/-- The retry loop of `HTTPAdapter(max_retries=Retry(total=2, backoff_factor=1,
status_forcelist=[502, 503, 504]))` mounted on the session (src/main.py lines
51-53), following urllib3's semantics: a response whose status is in the
forcelist, or a transport failure, consumes one unit of `total` and is
retried after the exponential backoff; when `total` is exhausted the adapter
raises (`raise_on_status` defaults to true, so exhausting retries on a
forcelist status raises a `RetryError` rather than returning the response);
any other status is returned immediately.  `supply i` is the outcome of the
`i`-th physical attempt; `made` and `slept` accumulate the ghost data. -/
def sessionGetAux (supply : Nat → Attempt α) (i remaining made : Nat)
    (slept : List Nat) : SessionResult α :=
  match supply i with
  | .connFail msg =>
    match remaining with
    | 0 => ⟨.exn msg, made + 1, slept⟩
    | r + 1 =>
      sessionGetAux supply (i + 1) r (made + 1) (slept ++ [backoff_time 1 (made + 1)])
  | .resp resp =>
    if resp.status ∈ status_forcelist then
      match remaining with
      | 0 => ⟨.exn ("too many " ++ toString resp.status ++ " error responses"),
              made + 1, slept⟩
      | r + 1 =>
        sessionGetAux supply (i + 1) r (made + 1) (slept ++ [backoff_time 1 (made + 1)])
    else ⟨.ok resp, made + 1, slept⟩

/-- `session.get(...)` with the mounted retry adapter: `Retry(total=2)`
allows at most 2 extra attempts after the first. -/
def session_get (supply : Nat → Attempt α) : SessionResult α :=
  sessionGetAux supply 0 2 0 []

/-- One element of the `data` list of the `/apps` response: the source reads
`apps_data[0]['id']` and `apps_data[0]['attributes']['name']`
(src/main.py lines 210-212); elements are modelled shape-complete because the
claims never probe malformed success bodies (a missing key would raise and
fall into the generic 500 branch). -/
structure AppObj where
  id : String
  name : String
deriving DecidableEq, Repr

/-- The `attributes` dict of one app-store-version object; the source reads
every field with `.get` and a default (src/main.py lines 248-257), so each
key may be absent. -/
structure VersionAttributes where
  versionString : Option String
  appStoreState : Option String
  platform : Option String
  createdDate : Option String
deriving DecidableEq, Repr

/-- One element of the `data` list of the `appStoreVersions` response;
the source reads `versions_list[0]['attributes']` (src/main.py line 233). -/
structure VersionObj where
  attributes : VersionAttributes
deriving DecidableEq, Repr

/-- A raised `fastapi.HTTPException`: its `status_code` and `detail`. -/
structure HTTPErr where
  status_code : Nat
  detail : String
deriving DecidableEq, Repr

/-- The success dict returned by `get_app_status` (src/main.py lines 250-259),
matching the `AppStatusResponse` model (lines 56-64). -/
structure AppStatusJson where
  app_name : String
  bundle_id : String
  version : String
  status : String
  status_cn : String
  platform : String
  created_date : String
  account_name : Option String
deriving DecidableEq, Repr

/-- The ambient world one `/status/{bundle_id}` request runs in: the two
private-key environment variables read at startup (src/main.py lines 20-25,
default `""`), the two `int(time.time())` reads and the ECDSA nonce consumed
by `generate_token`, whether `jwt.encode` raises (with which message), and
the per-attempt outcomes of the two upstream calls. -/
structure Env where
  key_account1 : String
  key_account2 : String
  now1 : Nat
  now2 : Nat
  nonce : Nat
  signErr : Option String
  appsSupply : Nat → Attempt AppObj
  verSupply : Nat → Attempt VersionObj

/-- Python `s.replace("\\n", "\n")` (src/main.py lines 21-22): scan left to
right, replacing each non-overlapping occurrence of backslash-`n` with a
newline character. -/
def replaceBackslashN : List Char → List Char
  | [] => []
  | '\\' :: 'n' :: rest => '\n' :: replaceBackslashN rest
  | c :: rest => c :: replaceBackslashN rest

/-- The `PRIVATE_KEYS` dict (src/main.py lines 20-25): each value is the
environment variable with literal `\n` escapes replaced by newlines. -/
def PRIVATE_KEYS (env : Env) : List (String × String) :=
  [("ACCOUNT1", String.mk (replaceBackslashN env.key_account1.data)),
   ("ACCOUNT2", String.mk (replaceBackslashN env.key_account2.data))]

/-- `get_app_config` (src/main.py lines 77-82): dict lookup; a missing entry
raises `ValueError` with this message. -/
def get_app_config (bundle_id : String) : Except String AppConfig :=
  match APP_CONFIGS.lookup bundle_id with
  | none => .error ("未配置的 Bundle ID: " ++ bundle_id)
  | some config => .ok config

/-- `get_private_key` (src/main.py lines 84-89): `PRIVATE_KEYS.get(key_name)`
followed by Python truthiness — a missing key and an empty string both raise
`ValueError` with this message. -/
def get_private_key (env : Env) (key_name : String) : Except String String :=
  match (PRIVATE_KEYS env).lookup key_name with
  | none =>
    .error ("私钥 " ++ key_name ++ " 未配置或为空，请检查环境变量 PRIVATE_KEY_" ++ key_name)
  | some k =>
    if k = "" then
      .error ("私钥 " ++ key_name ++ " 未配置或为空，请检查环境变量 PRIVATE_KEY_" ++ key_name)
    else .ok k

/-- Message of Python's `json.JSONDecodeError` raised by `response.json()` on
the 200-path (src/main.py lines 203, 225); its precise text comes from the
json library and nothing downstream inspects it, so it is modelled as a
function of the unparseable body text. -/
def json_decode_error_message (text : String) : String :=
  "JSONDecodeError: " ++ text

/-- `get_app_status` (src/main.py lines 152-267).  Every failure is raised as
an `HTTPException`; the trailing `except Exception` turns any other raised
exception (a `requests` retry/transport error, `jwt` failure wrapped in
`RuntimeError`, or a JSON decode error) into a 500 with the
`服务器内部错误: ` prefix.  Mirrors the source's control flow step by step. -/
def get_app_status (env : Env) (bundle_id : String) : Except HTTPErr AppStatusJson :=
  match get_app_config bundle_id with
  | .error e =>
    .error ⟨404, e ++ ". 支持的 Bundle ID: " ++
      String.intercalate ", " (APP_CONFIGS.map Prod.fst)⟩
  | .ok config =>
    match get_private_key env config.private_key with
    | .error e => .error ⟨500, "配置错误: " ++ e⟩
    | .ok private_key =>
      match env.signErr with
      | some m => .error ⟨500, "服务器内部错误: JWT 生成失败: " ++ m⟩
      | none =>
        let _token := generate_token config.key_id config.issuer_id private_key
          env.now1 env.now2 env.nonce
        match (session_get env.appsSupply).outcome with
        | .exn msg => .error ⟨500, "服务器内部错误: " ++ msg⟩
        | .ok app_req =>
          if app_req.status ≠ 200 then
            .error ⟨app_req.status, "查找 App 失败: " ++ get_apple_error_detail app_req⟩
          else
            match app_req.json with
            | none => .error ⟨500, "服务器内部错误: " ++ json_decode_error_message app_req.text⟩
            | some apps_json =>
              match apps_json.data with
              | [] => .error ⟨404, "Apple 后台未找到 Bundle ID: " ++ bundle_id⟩
              | app_obj :: _ =>
                match (session_get env.verSupply).outcome with
                | .exn msg => .error ⟨500, "服务器内部错误: " ++ msg⟩
                | .ok ver_req =>
                  if ver_req.status ≠ 200 then
                    .error ⟨ver_req.status, "获取版本失败: " ++ get_apple_error_detail ver_req⟩
                  else
                    match ver_req.json with
                    | none =>
                      .error ⟨500, "服务器内部错误: " ++ json_decode_error_message ver_req.text⟩
                    | some ver_json =>
                      match ver_json.data with
                      | [] => .error ⟨404, "该 App 尚未创建任何版本"⟩
                      | v :: _ =>
                        let latest_version := v.attributes
                        let state := latest_version.appStoreState.getD "UNKNOWN"
                        .ok
                          { app_name := app_obj.name
                            bundle_id := bundle_id
                            version := latest_version.versionString.getD "N/A"
                            status := state
                            status_cn := statusCn state
                            platform := latest_version.platform.getD "IOS"
                            created_date := latest_version.createdDate.getD ""
                            account_name := some config.name }

/-- The JSON body the service actually serializes for a `/status` request.
FastAPI routes a raised `HTTPException` to its default handler, whose body is
the single-field object `{"detail": <detail>}`; the handler registered with
`@app.exception_handler(Exception)` (src/main.py lines 270-275) only receives
exceptions that escape the route handler, and is the only producer of the
two-field `{"success": ..., "detail": ...}` envelope. -/
inductive ServedBody
  | detailOnly (detail : String)
  | envelope (success : Bool) (detail : String)
  | payload (r : AppStatusJson)
deriving DecidableEq, Repr

/-- Whether a serialized body carries a `success` field. -/
def served_has_success_field : ServedBody → Bool
  | .envelope _ _ => true
  | _ => false

/-- `GET /status/{bundle_id}` end to end: run `get_app_status`; a success is
serialized as the result object with status 200, a raised `HTTPException` is
serialized by FastAPI's default handler as `{"detail": ...}` with the
exception's status code. -/
def serve_status (env : Env) (bundle_id : String) : Nat × ServedBody :=
  match get_app_status env bundle_id with
  | .ok r => (200, .payload r)
  | .error e => (e.status_code, .detailOnly e.detail)

/-- `universal_exception_handler` (src/main.py lines 270-275): a 500 whose
body is `{"success": False, "detail": str(exc)}`; as registered it is reached
only by exceptions that escape a route handler. -/
def universal_exception_handler (exc_text : String) : Nat × ServedBody :=
  (500, .envelope false exc_text)

/-! ## Helper lemmas -/

theorem lookup_eq_none_of_not_mem_keys {β : Type} {l : List (String × β)} {s : String}
    (h : s ∉ l.map Prod.fst) : l.lookup s = none := by
  induction l with
  | nil => rfl
  | cons p t ih =>
    simp only [List.map_cons, List.mem_cons] at h
    push_neg at h
    cases p with
    | mk k v =>
      have hbeq : (s == k) = false := beq_eq_false_iff_ne.mpr h.1
      simp [List.lookup, hbeq, ih h.2]

/-! ## Claims -/

theorem sessionGetAux_attempts_le {α : Type} (supply : Nat → Attempt α) :
    ∀ (remaining i made : Nat) (slept : List Nat),
      (sessionGetAux supply i remaining made slept).attempts ≤ made + remaining + 1 := by
  intro remaining
  induction remaining with
  | zero =>
    intro i made slept
    unfold sessionGetAux
    rcases hs : supply i with r | msg
    · by_cases hr : r.status ∈ status_forcelist <;> simp [hr]
    · simp
  | succ n ih =>
    intro i made slept
    unfold sessionGetAux
    rcases hs : supply i with r | msg
    · by_cases hr : r.status ∈ status_forcelist
      · simp only [hr, if_true]
        exact le_trans (ih (i + 1) (made + 1) _) (by omega)
      · simp [hr]
    · exact le_trans (ih (i + 1) (made + 1) _) (by omega)

/-- C1 (amended): the session's retry policy — at most 2 extra attempts
beyond the first (3 attempts total, `Retry(total=2)`); a 404 response is
returned immediately with no retry and no backoff sleep; a simulated 503 on
the first two attempts is retried exactly twice, succeeding when the attempt
after the retries returns 200, but the backoff is NOT "exponential starting
at 1 second": urllib3 sleeps 0 seconds before the first retry and
`backoff_factor * 2^(k-1)` = 2 seconds before the second; a connection-level
failure is likewise retried (also with an immediate first retry). -/
theorem C1_retry_policy :
    (∀ {α : Type} (supply : Nat → Attempt α), (session_get supply).attempts ≤ 3) ∧
    (∀ {α : Type} (supply : Nat → Attempt α) (r : UpResponse α),
      supply 0 = .resp r → r.status = 404 → session_get supply = ⟨.ok r, 1, []⟩) ∧
    (∀ {α : Type} (supply : Nat → Attempt α) (r0 r1 r2 : UpResponse α),
      supply 0 = .resp r0 → r0.status = 503 →
      supply 1 = .resp r1 → r1.status = 503 →
      supply 2 = .resp r2 → r2.status = 200 →
      session_get supply = ⟨.ok r2, 3, [0, 2]⟩) ∧
    (∀ {α : Type} (supply : Nat → Attempt α) (m : String) (r : UpResponse α),
      supply 0 = .connFail m → supply 1 = .resp r → r.status = 200 →
      session_get supply = ⟨.ok r, 2, [0]⟩) := by
  refine ⟨?_, ?_, ?_, ?_⟩
  · intro α supply
    exact sessionGetAux_attempts_le supply 2 0 0 []
  · intro α supply r h0 h404
    simp [session_get, sessionGetAux, h0, h404, status_forcelist]
  · intro α supply r0 r1 r2 h0 s0 h1 s1 h2 s2
    simp [session_get, sessionGetAux, h0, s0, h1, s1, h2, s2, status_forcelist,
      backoff_time]
  · intro α supply m r h0 h1 s1
    simp [session_get, sessionGetAux, h0, h1, s1, status_forcelist, backoff_time]

/-- First-attempt 404 response used to exercise the no-retry branch. -/
def c1resp404 : UpResponse AppObj := ⟨404, "not found", none⟩

/-- 503 response used to exercise the retry branch. -/
def c1resp503 : UpResponse AppObj := ⟨503, "service unavailable", none⟩

/-- 200 response used as the final successful attempt. -/
def c1resp200 : UpResponse AppObj := ⟨200, "ok body", none⟩

/-- Attempt supply: every attempt answers 404. -/
def c1supply404 : Nat → Attempt AppObj := fun _ => .resp c1resp404

/-- Attempt supply: 503 on attempts 0 and 1, then 200. -/
def c1supply503 : Nat → Attempt AppObj :=
  fun i => if i < 2 then .resp c1resp503 else .resp c1resp200

/-- Attempt supply: connection failure first, then 200. -/
def c1supplyConn : Nat → Attempt AppObj :=
  fun i => if i = 0 then .connFail "connection reset" else .resp c1resp200

/-- C1 counterexample: in the simulated-503 scenario the claim demands
exponential backoff starting at 1 second, but the retry layer's sleeps are
`[0, 2]` — the first retry is immediate — so the backoff sequence is not
`[1, 2]` and its first sleep is 0, not 1. -/
theorem C1_cex_first_backoff_is_zero :
    session_get c1supply503 = ⟨.ok c1resp200, 3, [0, 2]⟩ ∧
    (session_get c1supply503).backoffs ≠ [1, 2] ∧
    (session_get c1supply503).backoffs.head? = some 0 := by
  exact ⟨rfl, by decide, rfl⟩

theorem C1_retry_policy_witness :
    session_get c1supply404 = ⟨.ok c1resp404, 1, []⟩ ∧
    session_get c1supply503 = ⟨.ok c1resp200, 3, [0, 2]⟩ ∧
    session_get c1supplyConn = ⟨.ok c1resp200, 2, [0]⟩ :=
  ⟨C1_retry_policy.2.1 c1supply404 c1resp404 rfl rfl,
   C1_retry_policy.2.2.1 c1supply503 c1resp503 c1resp503 c1resp200 rfl rfl rfl rfl rfl rfl,
   C1_retry_policy.2.2.2 c1supplyConn "connection reset" c1resp200 rfl rfl rfl⟩

/-- C2: `generate_token` issues a token whose claim set is exactly
`{iss = issuer_id, iat = now, exp = now + 900, aud = "appstoreconnect-v1"}`,
signed with ES256 and carrying the credential's `key_id` as the header `kid`;
as long as the second clock read does not lag the first by more than 300
seconds the difference `exp - iat` lies within the 900–1200 second window. -/
theorem C2_token_claim_set (key_id issuer_id private_key : String)
    (now1 now2 nonce : Nat) (hmono : now1 ≤ now2) (hdrift : now2 ≤ now1 + 300) :
    (generate_token key_id issuer_id private_key now1 now2 nonce).payload =
      { iss := issuer_id, iat := now1, exp := now2 + 900, aud := "appstoreconnect-v1" } ∧
    (generate_token key_id issuer_id private_key now1 now2 nonce).header_alg = "ES256" ∧
    (generate_token key_id issuer_id private_key now1 now2 nonce).header_kid = key_id ∧
    900 ≤ (generate_token key_id issuer_id private_key now1 now2 nonce).payload.exp -
      (generate_token key_id issuer_id private_key now1 now2 nonce).payload.iat ∧
    (generate_token key_id issuer_id private_key now1 now2 nonce).payload.exp -
      (generate_token key_id issuer_id private_key now1 now2 nonce).payload.iat ≤ 1200 := by
  refine ⟨rfl, rfl, rfl, ?_, ?_⟩ <;> simp only [generate_token] <;> omega

theorem C2_token_claim_set_witness :
    (generate_token "6UTNX28TTA" "54b0385b-4752-4e0f-b50e-e2873b621c62" "PK"
      1700000000 1700000000 7).payload =
      { iss := "54b0385b-4752-4e0f-b50e-e2873b621c62", iat := 1700000000,
        exp := 1700000000 + 900, aud := "appstoreconnect-v1" } ∧
    (generate_token "6UTNX28TTA" "54b0385b-4752-4e0f-b50e-e2873b621c62" "PK"
      1700000000 1700000000 7).header_alg = "ES256" ∧
    (generate_token "6UTNX28TTA" "54b0385b-4752-4e0f-b50e-e2873b621c62" "PK"
      1700000000 1700000000 7).header_kid = "6UTNX28TTA" ∧
    900 ≤ (generate_token "6UTNX28TTA" "54b0385b-4752-4e0f-b50e-e2873b621c62" "PK"
      1700000000 1700000000 7).payload.exp -
      (generate_token "6UTNX28TTA" "54b0385b-4752-4e0f-b50e-e2873b621c62" "PK"
        1700000000 1700000000 7).payload.iat ∧
    (generate_token "6UTNX28TTA" "54b0385b-4752-4e0f-b50e-e2873b621c62" "PK"
      1700000000 1700000000 7).payload.exp -
      (generate_token "6UTNX28TTA" "54b0385b-4752-4e0f-b50e-e2873b621c62" "PK"
        1700000000 1700000000 7).payload.iat ≤ 1200 :=
  C2_token_claim_set "6UTNX28TTA" "54b0385b-4752-4e0f-b50e-e2873b621c62" "PK"
    1700000000 1700000000 7 (by decide) (by decide)

/-- C3 counterexample: the code's `status_map` contains neither
`PENDING_APPLE_RELEASE` nor `INVALID_BINARY`, so two of the eleven codes the
claim lists have no localized label — they pass through as themselves. -/
theorem C3_cex_missing_codes :
    statusMap.lookup "PENDING_APPLE_RELEASE" = none ∧
    statusMap.lookup "INVALID_BINARY" = none ∧
    statusCn "PENDING_APPLE_RELEASE" = "PENDING_APPLE_RELEASE" ∧
    statusCn "INVALID_BINARY" = "INVALID_BINARY" := by decide

/-- C3 (amended): the table maps exactly nine codes — READY_FOR_SALE,
IN_REVIEW, WAITING_FOR_REVIEW, PENDING_DEVELOPER_RELEASE, REJECTED,
PREPARE_FOR_SUBMISSION, DEVELOPER_REJECTED, REMOVED_FROM_SALE,
METADATA_REJECTED — to their fixed localized labels, and every code outside
the table (including PENDING_APPLE_RELEASE and INVALID_BINARY) is sent to
the code string itself. -/
theorem C3_status_label_table :
    (statusCn "READY_FOR_SALE" = "已上架" ∧
     statusCn "IN_REVIEW" = "审核中" ∧
     statusCn "WAITING_FOR_REVIEW" = "等待审核" ∧
     statusCn "PENDING_DEVELOPER_RELEASE" = "等待开发者发布" ∧
     statusCn "REJECTED" = "被拒绝" ∧
     statusCn "PREPARE_FOR_SUBMISSION" = "准备提交" ∧
     statusCn "DEVELOPER_REJECTED" = "开发者撤回" ∧
     statusCn "REMOVED_FROM_SALE" = "已下架" ∧
     statusCn "METADATA_REJECTED" = "元数据被拒") ∧
    ∀ s : String, s ∉ statusMap.map Prod.fst → statusCn s = s := by
  refine ⟨by decide, fun s h => ?_⟩
  simp [statusCn, lookup_eq_none_of_not_mem_keys h]

theorem C3_status_label_table_witness :
    statusCn "SOME_NEW_STATE" = "SOME_NEW_STATE" :=
  C3_status_label_table.2 "SOME_NEW_STATE" (by decide)

/-- C9 counterexample: two distinct calls to `generate_token` that happen in
the same clock second (both reads of `int(time.time())` return 1700000000;
different ECDSA nonces distinguish the calls) produce identical claim sets —
in particular their `iat` claims are equal, so it is false that the
`issued_at` claims of any two calls differ, and token distinctness is not
guaranteed by `issued_at`. -/
theorem C9_cex_same_second_same_iat :
    (generate_token "6UTNX28TTA" "54b0385b-4752-4e0f-b50e-e2873b621c62" "PK"
      1700000000 1700000000 5).payload.iat =
    (generate_token "6UTNX28TTA" "54b0385b-4752-4e0f-b50e-e2873b621c62" "PK"
      1700000000 1700000000 9).payload.iat ∧
    (generate_token "6UTNX28TTA" "54b0385b-4752-4e0f-b50e-e2873b621c62" "PK"
      1700000000 1700000000 5).payload =
    (generate_token "6UTNX28TTA" "54b0385b-4752-4e0f-b50e-e2873b621c62" "PK"
      1700000000 1700000000 9).payload := ⟨rfl, rfl⟩

/-- C9 (amended): two calls to `generate_token` with the same credential
whose first clock reads (`iat`) differ always produce different tokens,
because the `iat` claim differs; calls within the same clock second produce
identical claim sets, so for those the code does not guarantee distinct
tokens through `issued_at`. -/
theorem C9_distinct_seconds_distinct_tokens (key_id issuer_id private_key : String)
    (t1 t2 u1 u2 n1 n2 : Nat) (h : t1 ≠ t2) :
    generate_token key_id issuer_id private_key t1 u1 n1 ≠
      generate_token key_id issuer_id private_key t2 u2 n2 := by
  intro he
  exact h (congrArg (fun t => t.payload.iat) he)

theorem C9_distinct_seconds_distinct_tokens_witness :
    generate_token "6UTNX28TTA" "54b0385b-4752-4e0f-b50e-e2873b621c62" "PK"
      1700000000 1700000000 5 ≠
    generate_token "6UTNX28TTA" "54b0385b-4752-4e0f-b50e-e2873b621c62" "PK"
      1700000001 1700000001 5 :=
  C9_distinct_seconds_distinct_tokens "6UTNX28TTA"
    "54b0385b-4752-4e0f-b50e-e2873b621c62" "PK"
    1700000000 1700000001 1700000000 1700000001 5 5 (by decide)

/-- C5: for every bundle id absent from the routing map, the resolver fails
with HTTP 404 and a detail string that contains every registered bundle
identifier (the full joined list `com.opalive.ios, com.lami.ios`). -/
theorem C5_unknown_bundle_404 (env : Env) (bundle_id : String)
    (h : APP_CONFIGS.lookup bundle_id = none) :
    get_app_status env bundle_id =
      .error ⟨404, "未配置的 Bundle ID: " ++ bundle_id ++
        ". 支持的 Bundle ID: " ++ "com.opalive.ios, com.lami.ios"⟩ ∧
    (∀ k ∈ APP_CONFIGS.map Prod.fst, ∃ p q : String,
      "未配置的 Bundle ID: " ++ bundle_id ++
        ". 支持的 Bundle ID: " ++ "com.opalive.ios, com.lami.ios" = p ++ (k ++ q)) := by
  constructor
  · unfold get_app_status get_app_config
    rw [h]
    rfl
  · intro k hk
    simp only [APP_CONFIGS, List.map_cons, List.map_nil, List.mem_cons,
      List.not_mem_nil, or_false] at hk
    rcases hk with rfl | rfl
    · exact ⟨"未配置的 Bundle ID: " ++ bundle_id ++ ". 支持的 Bundle ID: ",
        ", com.lami.ios", rfl⟩
    · refine ⟨"未配置的 Bundle ID: " ++ bundle_id ++
        ". 支持的 Bundle ID: com.opalive.ios, ", "", ?_⟩
      calc "未配置的 Bundle ID: " ++ bundle_id ++
            ". 支持的 Bundle ID: " ++ "com.opalive.ios, com.lami.ios"
          = ("未配置的 Bundle ID: " ++ bundle_id) ++
              (". 支持的 Bundle ID: " ++ "com.opalive.ios, com.lami.ios") :=
            String.append_assoc _ _ _
        _ = ("未配置的 Bundle ID: " ++ bundle_id) ++
              (". 支持的 Bundle ID: com.opalive.ios, " ++ ("com.lami.ios" ++ "")) := rfl
        _ = ("未配置的 Bundle ID: " ++ bundle_id ++
              ". 支持的 Bundle ID: com.opalive.ios, ") ++ ("com.lami.ios" ++ "") :=
            (String.append_assoc _ _ _).symm

/-- A fully concrete environment: both private keys set, signing succeeds,
both upstream calls answer 200 with well-formed non-empty bodies. -/
def envOk : Env :=
  { key_account1 := "PK1"
    key_account2 := "PK2"
    now1 := 1700000000
    now2 := 1700000000
    nonce := 0
    signErr := none
    appsSupply := fun _ => .resp ⟨200, "", some ⟨[⟨"6739869585", "Opalive"⟩], []⟩⟩
    verSupply := fun _ => .resp ⟨200, "",
      some ⟨[⟨⟨some "1.2.3", some "READY_FOR_SALE", some "IOS",
        some "2024-01-01T00:00:00-08:00"⟩⟩], []⟩⟩ }

theorem C5_unknown_bundle_404_witness :
    get_app_status envOk "com.unknown.app" =
      .error ⟨404, "未配置的 Bundle ID: " ++ "com.unknown.app" ++
        ". 支持的 Bundle ID: " ++ "com.opalive.ios, com.lami.ios"⟩ ∧
    (∀ k ∈ APP_CONFIGS.map Prod.fst, ∃ p q : String,
      "未配置的 Bundle ID: " ++ "com.unknown.app" ++
        ". 支持的 Bundle ID: " ++ "com.opalive.ios, com.lami.ios" = p ++ (k ++ q)) :=
  C5_unknown_bundle_404 envOk "com.unknown.app" rfl

/-- C4: when an upstream step returns a 2xx response whose `data` list is
empty — no app found for the bundle id in step 1, or no versions for the app
in step 2 — the resolver fails with a domain not-found carrying HTTP 404. -/
theorem C4_empty_upstream_result_is_404 (env : Env) (bundle_id : String)
    (config : AppConfig) (pk : String)
    (hc : get_app_config bundle_id = .ok config)
    (hk : get_private_key env config.private_key = .ok pk)
    (hs : env.signErr = none) :
    (∀ (r : UpResponse AppObj) (j : UpJson AppObj),
      (session_get env.appsSupply).outcome = .ok r → r.status = 200 →
      r.json = some j → j.data = [] →
      get_app_status env bundle_id =
        .error ⟨404, "Apple 后台未找到 Bundle ID: " ++ bundle_id⟩) ∧
    (∀ (r : UpResponse AppObj) (j : UpJson AppObj) (a : AppObj) (rest : List AppObj)
      (rv : UpResponse VersionObj) (jv : UpJson VersionObj),
      (session_get env.appsSupply).outcome = .ok r → r.status = 200 →
      r.json = some j → j.data = a :: rest →
      (session_get env.verSupply).outcome = .ok rv → rv.status = 200 →
      rv.json = some jv → jv.data = [] →
      get_app_status env bundle_id = .error ⟨404, "该 App 尚未创建任何版本"⟩) := by
  constructor
  · intro r j hr h200 hj hd
    simp [get_app_status, hc, hk, hs, hr, h200, hj, hd]
  · intro r j a rest rv jv hr h200 hj hd hrv h200v hjv hdv
    simp [get_app_status, hc, hk, hs, hr, h200, hj, hd, hrv, h200v, hjv, hdv]

/-- Environment whose step-1 `apps` call answers 200 with an empty `data`
list. -/
def envEmptyApps : Env :=
  { envOk with appsSupply := fun _ => .resp ⟨200, "", some ⟨[], []⟩⟩ }

theorem C4_empty_upstream_result_is_404_witness :
    get_app_status envEmptyApps "com.opalive.ios" =
      .error ⟨404, "Apple 后台未找到 Bundle ID: " ++ "com.opalive.ios"⟩ :=
  (C4_empty_upstream_result_is_404 envEmptyApps "com.opalive.ios"
      { name := "4part", key_id := "6UTNX28TTA",
        issuer_id := "54b0385b-4752-4e0f-b50e-e2873b621c62",
        private_key := "ACCOUNT1" } "PK1" rfl rfl rfl).1
    ⟨200, "", some ⟨[], []⟩⟩ ⟨[], []⟩ rfl rfl rfl rfl

/-- A 404 response with a structured Apple error body carrying
`errors[0].detail = "Not found"`. -/
def resp404Structured : UpResponse AppObj :=
  ⟨404, "raw error body", some ⟨[], [⟨some "Not found"⟩]⟩⟩

/-- Environment whose step-1 `apps` call answers with `resp404Structured`. -/
def envApps404 : Env :=
  { envOk with appsSupply := fun _ => .resp resp404Structured }

/-- C6 counterexample: on an upstream 404 with a structured error body whose
`errors[0].detail` is `"Not found"`, the resolver's `HTTPException` detail is
`"查找 App 失败: Not found"` — the extracted upstream detail behind a fixed
step prefix — not the bare `errors[0].detail` string the claim states. -/
theorem C6_cex_detail_is_prefixed :
    get_app_status envApps404 "com.opalive.ios" =
      .error ⟨404, "查找 App 失败: " ++ "Not found"⟩ ∧
    "查找 App 失败: " ++ "Not found" ≠ "Not found" := by
  exact ⟨rfl, by decide⟩

/-- C6 (amended): for every non-2xx upstream response surviving the retry
layer, the resolver's error carries the upstream status code verbatim and its
detail is a fixed step prefix (`查找 App 失败: ` for step 1, `获取版本失败: `
for step 2) followed by the extracted upstream detail, where the extraction
returns `errors[0].detail` when the body parses as a structured
`errors`-document with a non-empty list whose first element has a `detail`
key, and the raw response body text otherwise. -/
theorem C6_upstream_error_passthrough (env : Env) (bundle_id : String)
    (config : AppConfig) (pk : String)
    (hc : get_app_config bundle_id = .ok config)
    (hk : get_private_key env config.private_key = .ok pk)
    (hs : env.signErr = none) :
    (∀ r : UpResponse AppObj,
      (session_get env.appsSupply).outcome = .ok r → r.status ≠ 200 →
      get_app_status env bundle_id =
        .error ⟨r.status, "查找 App 失败: " ++ get_apple_error_detail r⟩) ∧
    (∀ (r : UpResponse AppObj) (j : UpJson AppObj) (a : AppObj) (rest : List AppObj)
      (rv : UpResponse VersionObj),
      (session_get env.appsSupply).outcome = .ok r → r.status = 200 →
      r.json = some j → j.data = a :: rest →
      (session_get env.verSupply).outcome = .ok rv → rv.status ≠ 200 →
      get_app_status env bundle_id =
        .error ⟨rv.status, "获取版本失败: " ++ get_apple_error_detail rv⟩) ∧
    (∀ (r : UpResponse AppObj) (j : UpJson AppObj) (d : String) (rest : List AppleError),
      r.json = some j → j.errors = ⟨some d⟩ :: rest → get_apple_error_detail r = d) ∧
    (∀ (r : UpResponse AppObj) (j : UpJson AppObj),
      r.json = some j → j.errors = [] → get_apple_error_detail r = r.text) ∧
    (∀ r : UpResponse AppObj, r.json = none → get_apple_error_detail r = r.text) := by
  refine ⟨?_, ?_, ?_, ?_, ?_⟩
  · intro r hr h200
    simp [get_app_status, hc, hk, hs, hr, h200]
  · intro r j a rest rv hr h200 hj hd hrv h200v
    simp [get_app_status, hc, hk, hs, hr, h200, hj, hd, hrv, h200v]
  · intro r j d rest hj he
    simp [get_apple_error_detail, hj, he]
  · intro r j hj he
    simp [get_apple_error_detail, hj, he]
  · intro r hj
    simp [get_apple_error_detail, hj]

theorem C6_upstream_error_passthrough_witness :
    get_app_status envApps404 "com.opalive.ios" =
      .error ⟨resp404Structured.status,
        "查找 App 失败: " ++ get_apple_error_detail resp404Structured⟩ :=
  (C6_upstream_error_passthrough envApps404 "com.opalive.ios"
      { name := "4part", key_id := "6UTNX28TTA",
        issuer_id := "54b0385b-4752-4e0f-b50e-e2873b621c62",
        private_key := "ACCOUNT1" } "PK1" rfl rfl rfl).1
    resp404Structured rfl (by decide)

/-- Environment in which every upstream attempt of step 1 fails at the
transport level (read timeout). -/
def envAllTimeout : Env :=
  { envOk with appsSupply := fun _ => .connFail "Read timed out. (read timeout=15)" }

/-- C7 counterexample: with every attempt timing out, the retry layer makes
exactly 3 attempts (2 retries) and then raises; the resolver's generic
`except Exception` branch turns that into HTTP **500** with the
`服务器内部错误: ` detail — the service has no 502 mapping at all. -/
theorem C7_cex_transport_failure_is_500 :
    get_app_status envAllTimeout "com.opalive.ios" =
      .error ⟨500, "服务器内部错误: " ++ "Read timed out. (read timeout=15)"⟩ ∧
    (session_get envAllTimeout.appsSupply).attempts = 3 ∧
    (500 : Nat) ≠ 502 := by
  exact ⟨rfl, rfl, by decide⟩

/-- C7 (amended): when every upstream attempt fails at the transport level,
the retry layer makes exactly 3 attempts (the configured 2 retries) and the
service responds with HTTP status 500 — not 502 — and detail
`服务器内部错误: ` followed by the transport exception text. -/
theorem C7_transport_failure_exhausts_retries (env : Env) (bundle_id : String)
    (config : AppConfig) (pk : String) (msg : String)
    (hc : get_app_config bundle_id = .ok config)
    (hk : get_private_key env config.private_key = .ok pk)
    (hs : env.signErr = none)
    (hfail : ∀ i, env.appsSupply i = .connFail msg) :
    get_app_status env bundle_id = .error ⟨500, "服务器内部错误: " ++ msg⟩ ∧
    (session_get env.appsSupply).attempts = 3 ∧
    (session_get env.appsSupply).outcome = .exn msg := by
  have hsess : session_get env.appsSupply = ⟨.exn msg, 3, [0, 2]⟩ := by
    simp [session_get, sessionGetAux, hfail, backoff_time]
  refine ⟨?_, by rw [hsess], by rw [hsess]⟩
  simp [get_app_status, hc, hk, hs, hsess]

theorem C7_transport_failure_exhausts_retries_witness :
    get_app_status envAllTimeout "com.opalive.ios" =
      .error ⟨500, "服务器内部错误: " ++ "Read timed out. (read timeout=15)"⟩ ∧
    (session_get envAllTimeout.appsSupply).attempts = 3 ∧
    (session_get envAllTimeout.appsSupply).outcome =
      .exn "Read timed out. (read timeout=15)" :=
  C7_transport_failure_exhausts_retries envAllTimeout "com.opalive.ios"
    { name := "4part", key_id := "6UTNX28TTA",
      issuer_id := "54b0385b-4752-4e0f-b50e-e2873b621c62",
      private_key := "ACCOUNT1" } "PK1" "Read timed out. (read timeout=15)"
    rfl rfl rfl (fun _ => rfl)

/-- C8: every failure of `GET /status/{bundle_id}` is raised as an
`HTTPException`, which FastAPI serializes with its default handler as the
one-field body `detailOnly` — carrying no `success` field — while the
`{success: false, detail}` envelope is produced only by
`universal_exception_handler`, which `HTTPException` never reaches.  Shown
at the failing input `GET /status/com.unknown.app`. -/
theorem C8_error_body_lacks_success_field :
    serve_status envOk "com.unknown.app" =
      (404, .detailOnly ("未配置的 Bundle ID: " ++ "com.unknown.app" ++
        ". 支持的 Bundle ID: " ++ "com.opalive.ios, com.lami.ios")) ∧
    served_has_success_field (serve_status envOk "com.unknown.app").2 = false ∧
    universal_exception_handler "boom" = (500, .envelope false "boom") ∧
    served_has_success_field (universal_exception_handler "boom").2 = true := by
  exact ⟨rfl, rfl, rfl, rfl⟩

theorem get_app_config_ok_lookup {bid : String} {c : AppConfig}
    (h : get_app_config bid = .ok c) : APP_CONFIGS.lookup bid = some c := by
  unfold get_app_config at h
  rcases hl : APP_CONFIGS.lookup bid with _ | cfg <;> rw [hl] at h <;> simp at h
  rw [h]

theorem APP_CONFIGS_name_ne_account {bid : String} {c : AppConfig}
    (h : APP_CONFIGS.lookup bid = some c) : c.name ≠ c.private_key := by
  by_cases h1 : bid = "com.opalive.ios"
  · subst h1
    simp [APP_CONFIGS, List.lookup] at h
    rw [← h]
    decide
  by_cases h2 : bid = "com.lami.ios"
  · subst h2
    simp [APP_CONFIGS, List.lookup] at h
    rw [← h]
    decide
  have b1 : (bid == "com.opalive.ios") = false := beq_eq_false_iff_ne.mpr h1
  have b2 : (bid == "com.lami.ios") = false := beq_eq_false_iff_ne.mpr h2
  simp [APP_CONFIGS, List.lookup, b1, b2] at h

/-- C10: every successful `/status/{bundle_id}` resolution carries a non-null
`account_name` equal to the routing entry's display `name` (e.g. `"4part"`),
which differs from the credential-store account identifier the route
references (e.g. `"ACCOUNT1"`). -/
theorem C10_account_name_is_route_display_name (env : Env) (bundle_id : String)
    (res : AppStatusJson) (h : get_app_status env bundle_id = .ok res) :
    ∃ config : AppConfig, APP_CONFIGS.lookup bundle_id = some config ∧
      res.account_name = some config.name ∧ config.name ≠ config.private_key := by
  cases hc : get_app_config bundle_id with
  | error e => simp [get_app_status, hc] at h
  | ok config =>
    refine ⟨config, get_app_config_ok_lookup hc, ?_,
      APP_CONFIGS_name_ne_account (get_app_config_ok_lookup hc)⟩
    cases hk : get_private_key env config.private_key with
    | error e => simp [get_app_status, hc, hk] at h
    | ok pk =>
      cases hs : env.signErr with
      | some m => simp [get_app_status, hc, hk, hs] at h
      | none =>
        cases ho : (session_get env.appsSupply).outcome with
        | exn m => simp [get_app_status, hc, hk, hs, ho] at h
        | ok r =>
          by_cases h200 : r.status = 200
          · cases hj : r.json with
            | none => simp [get_app_status, hc, hk, hs, ho, h200, hj] at h
            | some j =>
              cases hd : j.data with
              | nil => simp [get_app_status, hc, hk, hs, ho, h200, hj, hd] at h
              | cons a rest =>
                cases hov : (session_get env.verSupply).outcome with
                | exn m => simp [get_app_status, hc, hk, hs, ho, h200, hj, hd, hov] at h
                | ok rv =>
                  by_cases hv200 : rv.status = 200
                  · cases hvj : rv.json with
                    | none =>
                      simp [get_app_status, hc, hk, hs, ho, h200, hj, hd, hov, hv200, hvj] at h
                    | some jv =>
                      cases hvd : jv.data with
                      | nil =>
                        simp [get_app_status, hc, hk, hs, ho, h200, hj, hd, hov, hv200,
                          hvj, hvd] at h
                      | cons v vs =>
                        simp [get_app_status, hc, hk, hs, ho, h200, hj, hd, hov, hv200,
                          hvj, hvd] at h
                        rw [← h]
                  · simp [get_app_status, hc, hk, hs, ho, h200, hj, hd, hov, hv200] at h
          · simp [get_app_status, hc, hk, hs, ho, h200] at h

theorem C10_account_name_is_route_display_name_witness :
    ∃ config : AppConfig, APP_CONFIGS.lookup "com.opalive.ios" = some config ∧
      (AppStatusJson.mk "Opalive" "com.opalive.ios" "1.2.3" "READY_FOR_SALE"
        "已上架" "IOS" "2024-01-01T00:00:00-08:00" (some "4part")).account_name =
        some config.name ∧
      config.name ≠ config.private_key :=
  C10_account_name_is_route_display_name envOk "com.opalive.ios"
    (AppStatusJson.mk "Opalive" "com.opalive.ios" "1.2.3" "READY_FOR_SALE"
      "已上架" "IOS" "2024-01-01T00:00:00-08:00" (some "4part")) rfl
